import Mathlib

/-!
Shallow embedding of the Suika-Lite merge-game core (src/suika-physics.js,
the nine-level build; src/unnamed/part_002 is an older seven-level variant
of the same protocol). Positions, velocities and times are rationals.
JS Math.round is modelled as floor(q + 1/2). Euclidean norm comparisons
are modelled through their squares, using the exact equivalences
sqrt s <= m  iff  0 <= m and s <= m^2, and sqrt s < m iff 0 < m and
s < m^2 (for s >= 0). Randomness (Math.random velocities, delays and
weighted picks) is passed in as explicit parameters. DOM, audio and
particle effects are not modelled. Matter.js world membership is tracked
as a list of body ids; Matter.js assigns fresh ids, modelled by a nextId
counter.
-/

namespace Suika

/-- JS Math.round: round half up, that is floor of q + 1/2. -/
def jsRound (q : ℚ) : ℤ := ⌊q + 1/2⌋

/-- CONFIG constants of src/suika-physics.js. -/
def MAX_LEVEL : ℕ := 9

def SPAWN_MAX_LEVEL : ℕ := 4

def RADIUS_BASE_FRAC : ℚ := 2/100

def RADIUS_GROWTH : ℚ := 14/10

def MAX_RADIUS_FRAC : ℚ := 26/100

def MERGE_MIN_DIST : ℚ := 1

def SPAWN_DEBOUNCE : ℚ := 200

def SPAWN_GRACE_MS : ℚ := 900

def CLEAR_UNLOCK_SCORE : ℤ := 500

def CLEAR_RECHARGE_POINTS : ℤ := 300

def CHAIN_TIMEOUT : ℚ := 900

/-- The responsive board rectangle. -/
structure BoardRect where
  boardW : ℚ
  boardX : ℚ
  boardY : ℚ
deriving DecidableEq

/-- computeBoardRect(): square board from the window size; the mobile
branch (innerWidth < 760) uses factor 0.94, desktop 0.78. -/
def computeBoardRect (iw ih : ℚ) : BoardRect :=
  let frac : ℚ := if iw < 760 then 94/100 else 78/100
  let boardW := min (iw * frac) (ih * (78/100))
  { boardW := boardW, boardX := (iw - boardW) / 2, boardY := (ih - boardW) / 2 }

/-- radiusForLevel(l): radius proportional to the current board width,
clamped, floored at 4 and rounded. -/
def radiusForLevel (iw ih : ℚ) (l : ℕ) : ℚ :=
  let lvl := max 1 (min l MAX_LEVEL)
  let boardW := (computeBoardRect iw ih).boardW
  let raw := boardW * RADIUS_BASE_FRAC * RADIUS_GROWTH ^ (lvl - 1)
  let clamped := min raw (boardW * MAX_RADIUS_FRAC)
  ((jsRound (max 4 clamped) : ℤ) : ℚ)

/-- The chain multiplier of scoreForMerge for the classic preset
(chainPower 0.12, capped at +0.6). Math.max(0, chainCount - 1) is the
truncated Nat subtraction. -/
def chainMultiplier (chainCount : ℕ) : ℚ :=
  1 + min (6/10) ((12/100) * ((chainCount - 1 : ℕ) : ℚ))

/-- The levelPts local of scoreForMerge for the classic preset (base 8,
doubling per level); Math.max(0, level - 1) is truncated subtraction. -/
def levelPts (level : ℕ) : ℤ := jsRound ((8 : ℚ) * 2 ^ (level - 1))

/-- scoreForMerge(level, chainCount) with SCORE_PRESET = classic. -/
def scoreForMerge (level chainCount : ℕ) : ℤ :=
  max 1 (min 999999 (jsRound ((levelPts level : ℚ) * chainMultiplier chainCount)))

/-- The spec notion basePoints(k): the points awarded for a merge scored at
tier k with no active combo; from the source this is levelPts together with
the final clamp of scoreForMerge. -/
def basePoints (level : ℕ) : ℤ := max 1 (min 999999 ((8 : ℤ) * 2 ^ (level - 1)))

/-- Rational characterization of sqrt(dx^2 + dy^2) <= m. -/
def distLe (dx dy m : ℚ) : Prop := 0 ≤ m ∧ dx ^ 2 + dy ^ 2 ≤ m ^ 2

instance (dx dy m : ℚ) : Decidable (distLe dx dy m) :=
  inferInstanceAs (Decidable (0 ≤ m ∧ dx ^ 2 + dy ^ 2 ≤ m ^ 2))

/-- Rational characterization of sqrt(dx^2 + dy^2) < m. -/
def distLt (dx dy m : ℚ) : Prop := 0 < m ∧ dx ^ 2 + dy ^ 2 < m ^ 2

instance (dx dy m : ℚ) : Decidable (distLt dx dy m) :=
  inferInstanceAs (Decidable (0 < m ∧ dx ^ 2 + dy ^ 2 < m ^ 2))

/-- p5 constrain(n, low, high) = Math.max(Math.min(n, high), low). -/
def constrain (n low high : ℚ) : ℚ := max (min n high) low

/-- The _fruit tag attached to a Matter body. -/
structure Fruit where
  level : ℕ
  radius : ℚ
  wobble : ℚ
deriving DecidableEq

/-- A Matter body as the game uses it: position, velocity, the fruit tag
(none for walls and the ground), the _spawnTime stamp and isStatic. -/
structure PBody where
  id : ℕ
  x : ℚ
  y : ℚ
  vx : ℚ
  vy : ℚ
  fruit : Option Fruit
  spawnTime : ℚ
  isStatic : Bool
deriving DecidableEq

/-- The module-level mutable state of src/suika-physics.js. worldIds
tracks which fruit bodies are in the Matter world; stored models the
localStorage slot suika_physics_high. previousBoardRect is the cached
rect used by windowResized. -/
structure GameState where
  iw : ℚ
  ih : ℚ
  previousBoardRect : BoardRect
  bodies : List PBody
  worldIds : List ℕ
  nextId : ℕ
  score : ℤ
  high : ℤ
  stored : Option ℤ
  gameOver : Bool
  isRunning : Bool
  mergedThisStep : List ℕ
  chainCount : ℕ
  lastMergeTime : ℚ
  lastSpawnTime : ℚ
  lastSpawnAt : ℚ
  nextPick : Option ℕ
  pointsAccumSinceClear : ℤ
  clearUnlocked : Bool
  clearAvailable : Bool
  clearUsed : Bool
deriving DecidableEq

/-- A deferred merge confirmation registered by scheduleMergeCheck: the
two body ids and the tier observed at scheduling time. -/
structure PendingCheck where
  idA : ℕ
  idB : ℕ
  lev : ℕ
deriving DecidableEq

/-- clampBodyInsideBoard(b): push the body back inside the side walls and
below the top line; the top clamp also damps the velocity. Bodies without
a fruit tag are left untouched. -/
def clampBodyInsideBoard (iw ih : ℚ) (b : PBody) : PBody :=
  match b.fruit with
  | none => b
  | some f =>
    let r := computeBoardRect iw ih
    let topLineY := r.boardY + 8
    let leftBound := r.boardX + 16 + f.radius
    let rightBound := r.boardX + r.boardW - 16 - f.radius
    let x1 := if b.x < leftBound then leftBound else b.x
    let x2 := if x1 > rightBound then rightBound else x1
    if b.y - f.radius < topLineY + 2 then
      { b with x := x2, y := topLineY + 2 + f.radius,
               vx := b.vx * (3/10), vy := max (1/10) (b.vy * (2/10)) }
    else
      { b with x := x2 }

/-- The wobble assignment nb._fruit.wobble = 1.2 performed by
tryMergePair on the freshly created body. -/
def setWobble (b : PBody) : PBody :=
  { b with fruit := b.fruit.map (fun f => { f with wobble := 12/10 }) }

/-- createFruitAt(level, x, y): build a circle body with the level radius,
add it to the world and the bodies array, set a random velocity (the rvx,
rvy parameters), stamp _spawnTime = millis() (the now parameter) and clamp
it inside the board. Density, inertia and spin are physics material
properties not modelled here. -/
def createFruitAt (st : GameState) (now rvx rvy : ℚ) (level : ℕ) (x y : ℚ) :
    PBody × GameState :=
  let r := radiusForLevel st.iw st.ih level
  let b0 : PBody :=
    { id := st.nextId, x := x, y := y, vx := rvx, vy := rvy,
      fruit := some { level := level, radius := r, wobble := 0 },
      spawnTime := now, isStatic := false }
  let b := clampBodyInsideBoard st.iw st.ih b0
  (b, { st with bodies := st.bodies ++ [b],
                worldIds := st.worldIds ++ [st.nextId],
                nextId := st.nextId + 1 })

/-- The chain count recordMergeForChain computes: extend the chain when the
previous merge is recent enough (JS truthiness makes lastMergeTime = 0 start
a fresh chain) and no spawn happened since, else restart at 1. -/
def newChainCount (st : GameState) (now : ℚ) : ℕ :=
  if st.lastMergeTime ≠ 0 ∧ now - st.lastMergeTime ≤ CHAIN_TIMEOUT
      ∧ st.lastSpawnTime ≤ st.lastMergeTime
  then st.chainCount + 1 else 1

/-- recordMergeForChain(): update chainCount and lastMergeTime. The chain
timeout timer that later resets chainCount to 0 is an async cosmetic
callback and is not part of this step. -/
def recordMergeForChain (st : GameState) (now : ℚ) : GameState :=
  { st with chainCount := newChainCount st now, lastMergeTime := now }

/-- The body-list surgery of tryMergePair: remove both sources from the
world and the bodies array, create the merged fruit at the pair midpoint
shifted up by 6 pixels, and set its wobble (the source mutates the object
just pushed, which is the last array element). -/
def mergeInsert (st : GameState) (now rvx rvy : ℚ) (A B : PBody) (level : ℕ) :
    GameState :=
  let st2 := { st with
    worldIds := st.worldIds.filter (fun i => !(i == A.id) && !(i == B.id)),
    bodies := st.bodies.filter (fun bb => !(bb.id == A.id) && !(bb.id == B.id)) }
  let res := createFruitAt st2 now rvx rvy level ((A.x + B.x) / 2)
      ((A.y + B.y) / 2 - 6)
  { res.2 with bodies := res.2.bodies.dropLast ++ [setWobble res.1] }

/-- The scoring block of tryMergePair: add the points to the score and the
ClearSmall charge, and update the in-memory high score and the persisted
slot when the score exceeds it. -/
def applyMergeScore (st : GameState) (ptsFinal : ℤ) : GameState :=
  let newScore := st.score + ptsFinal
  if newScore > st.high then
    { st with score := newScore,
              pointsAccumSinceClear := st.pointsAccumSinceClear + ptsFinal,
              high := newScore, stored := some newScore }
  else
    { st with score := newScore,
              pointsAccumSinceClear := st.pointsAccumSinceClear + ptsFinal }

/-- The ClearSmall unlock and recharge updates at the end of
tryMergePair. -/
def clearChargeUpdate (st : GameState) : GameState :=
  let st7 :=
    if ¬st.clearUnlocked ∧ st.score ≥ CLEAR_UNLOCK_SCORE then
      { st with clearUnlocked := true, clearAvailable := true }
    else st
  if st7.clearUnlocked ∧ ¬st7.clearAvailable
      ∧ st7.pointsAccumSinceClear ≥ CLEAR_RECHARGE_POINTS then
    { st7 with clearAvailable := true, pointsAccumSinceClear := 0 }
  else st7

/-- The body of tryMergePair after all guards passed, in source order:
body surgery, chain recording, scoring at the new level with the updated
chain count, then the ClearSmall updates. -/
def mergeExec (st : GameState) (now rvx rvy : ℚ) (A B : PBody) (fa : Fruit) :
    GameState :=
  let level := min (fa.level + 1) MAX_LEVEL
  let st5 := recordMergeForChain (mergeInsert st now rvx rvy A B level) now
  clearChargeUpdate (applyMergeScore st5 (scoreForMerge level st5.chainCount))

/-- tryMergePair(A, B): guard against double processing in the frame, a
missing fruit tag, a source already at MAX_LEVEL, then record both ids as
processed, re-check world membership, and execute the merge. -/
def tryMergePair (st : GameState) (now rvx rvy : ℚ) (A B : PBody) : GameState :=
  if A.id ∈ st.mergedThisStep ∨ B.id ∈ st.mergedThisStep then st
  else
    match A.fruit, B.fruit with
    | some fa, some _ =>
      if MAX_LEVEL ≤ fa.level then st
      else
        let st1 := { st with mergedThisStep := st.mergedThisStep ++ [A.id, B.id] }
        if A.id ∉ st1.worldIds ∨ B.id ∉ st1.worldIds then st1
        else mergeExec st1 now rvx rvy A B fa
    | _, _ => st

/-- scheduleMergeCheck(A, B): register a deferred check carrying the ids
and the tier observed now; an early return drops pairs already at
MAX_LEVEL. The source reads A._fruit.level, so it is only invoked on
bodies carrying a fruit tag; a missing tag yields no check here. -/
def scheduleMergeCheck (A B : PBody) : Option PendingCheck :=
  match A.fruit with
  | none => none
  | some fa =>
    if MAX_LEVEL ≤ fa.level then none
    else some { idA := A.id, idB := B.id, lev := fa.level }

/-- onCollision(event): for each contact pair, skip wall contacts and
bodies without fruit tags, and schedule a deferred merge check for
same-tier pairs below MAX_LEVEL whose center distance is within the sum
of radii. -/
def onCollision (pairs : List (PBody × PBody)) : List PendingCheck :=
  pairs.filterMap (fun p =>
    match p.1.fruit, p.2.fruit with
    | some fa, some fb =>
      if p.1.isStatic || p.2.isStatic then none
      else if fa.level = fb.level ∧ fa.level < MAX_LEVEL then
        if distLe (p.1.x - p.2.x) (p.1.y - p.2.y)
            ((fa.radius + fb.radius) * MERGE_MIN_DIST) then
          scheduleMergeCheck p.1 p.2
        else none
      else none
    | _, _ => none)

/-- The deferred callback of scheduleMergeCheck: re-find both bodies by id
in the live list, re-validate the fruit tags and the tier observed at
scheduling time, re-check contact distance and relative velocity
(threshold 2.8), and only then merge. Every failed validation returns the
state unchanged. -/
def mergeCheckCallback (st : GameState) (now rvx rvy : ℚ) (idA idB : ℕ)
    (lev : ℕ) : GameState :=
  match st.bodies.find? (fun b => b.id == idA),
        st.bodies.find? (fun b => b.id == idB) with
  | some bodyA, some bodyB =>
    match bodyA.fruit, bodyB.fruit with
    | some fA, some fB =>
      if fA.level ≠ lev ∨ fB.level ≠ lev then st
      else if distLe (bodyA.x - bodyB.x) (bodyA.y - bodyB.y)
                ((fA.radius + fB.radius) * MERGE_MIN_DIST)
              ∧ distLe (bodyA.vx - bodyB.vx) (bodyA.vy - bodyB.vy) (14/5) then
        tryMergePair st now rvx rvy bodyA bodyB
      else st
    | _, _ => st
  | _, _ => st

/-- The terminal-tier census taken each frame. -/
def terminalCount (bs : List PBody) : ℕ :=
  bs.countP (fun b =>
    match b.fruit with
    | some f => f.level == MAX_LEVEL
    | none => false)

/-- triggerGameOver(): end the round (gravity zeroing and overlay DOM are
not modelled). -/
def triggerGameOver (st : GameState) : GameState :=
  { st with gameOver := true, isRunning := false }

/-- triggerFruitSupernova(): end the round, remove every tracked body from
the world and empty the bodies array. -/
def triggerFruitSupernova (st : GameState) : GameState :=
  { st with gameOver := true, isRunning := false,
            worldIds := st.worldIds.filter
              (fun i => !(st.bodies.any (fun b => b.id == i))),
            bodies := [] }

/-- The terminal-tier saturation check of draw() (lines 837-842). -/
def supernovaCheck (st : GameState) : GameState :=
  if ¬st.gameOver ∧ 5 ≤ terminalCount st.bodies then triggerFruitSupernova st
  else st

/-- The per-body game-over test of draw() (lines 848-861). The JS guard
b._spawnTime && (now - b._spawnTime) < SPAWN_GRACE_MS is truthiness on
_spawnTime, so the exemption needs a nonzero stamp. A body is over the
line when its top edge is above topLineY + 2, or above topLineY + 8 while
its speed is below 0.12. -/
def bodyOverLine (rect : BoardRect) (now : ℚ) (b : PBody) : Bool :=
  match b.fruit with
  | none => false
  | some f =>
    if b.spawnTime ≠ 0 ∧ now - b.spawnTime < SPAWN_GRACE_MS then false
    else
      let topLineY := rect.boardY + 8
      let topOfFruit := b.y - f.radius
      if topOfFruit < topLineY + 2 then true
      else decide (topOfFruit < topLineY + 8 ∧ distLt b.vx b.vy (12/100))

/-- The game-over scan of draw() (lines 845-862); the loop breaks on the
first violating body, which triggerGameOver makes equivalent to an
existence test. -/
def gameOverCheck (st : GameState) (now : ℚ) : GameState :=
  if ¬st.gameOver ∧ st.bodies.any (bodyOverLine (computeBoardRect st.iw st.ih) now)
  then triggerGameOver st
  else st

/-- The round-ending checks at the end of each draw() frame, in source
order: terminal-tier saturation, then the danger-line scan. -/
def drawRoundChecks (st : GameState) (now : ℚ) : GameState :=
  gameOverCheck (supernovaCheck st) now

/-- spawnFruit(screenX, forcedLevel): guarded by isRunning and gameOver;
stamps lastSpawnTime, constrains the horizontal position into the board,
consumes nextPick (the pickRand parameter models the weightedPick fallback,
newPick the refill), clamps the level by SPAWN_MAX_LEVEL, creates the body
just below the top edge and clamps it inside the board. In this source file
every call passes no forcedLevel. -/
def spawnFruit (st : GameState) (now rvx rvy : ℚ) (screenX : Option ℚ)
    (forcedLevel : Option ℕ) (pickRand newPick : ℕ) : GameState :=
  if ¬st.isRunning ∨ st.gameOver then st
  else
    let st0 := { st with lastSpawnTime := now }
    let r0 := computeBoardRect st.iw st.ih
    let pad : ℚ := 18
    let spawnX :=
      match screenX with
      | some sx => constrain sx (r0.boardX + pad) (r0.boardX + r0.boardW - pad)
      | none => r0.boardX + r0.boardW / 2
    let lvlSt : ℕ × GameState :=
      match forcedLevel with
      | some fl => (min fl MAX_LEVEL, st0)
      | none => (min (st0.nextPick.getD pickRand) SPAWN_MAX_LEVEL,
                 { st0 with nextPick := some newPick })
    let spawnLevel := lvlSt.1
    let st1 := lvlSt.2
    let r := radiusForLevel st.iw st.ih spawnLevel
    let spawnY := r0.boardY + r + 6
    let b0 : PBody :=
      { id := st1.nextId, x := spawnX, y := spawnY, vx := rvx, vy := rvy,
        fruit := some { level := spawnLevel, radius := r, wobble := 0 },
        spawnTime := now, isStatic := false }
    let b := clampBodyInsideBoard st.iw st.ih b0
    { st1 with bodies := st1.bodies ++ [b],
               worldIds := st1.worldIds ++ [st1.nextId],
               nextId := st1.nextId + 1 }

/-- attemptSpawnAtScreenX(screenX): debounce by SPAWN_DEBOUNCE since the
last accepted attempt, reject taps outside the horizontal board extent,
then spawn at the constrained position. -/
def attemptSpawnAtScreenX (st : GameState) (now rvx rvy : ℚ) (screenX : ℚ)
    (pickRand newPick : ℕ) : GameState :=
  if now - st.lastSpawnAt < SPAWN_DEBOUNCE then st
  else
    let st1 := { st with lastSpawnAt := now }
    let r0 := computeBoardRect st.iw st.ih
    if screenX < r0.boardX + 4 ∨ screenX > r0.boardX + r0.boardW - 4 then st1
    else
      spawnFruit st1 now rvx rvy
        (some (constrain screenX (r0.boardX + 16) (r0.boardX + r0.boardW - 16)))
        none pickRand newPick

/-- keyPressed(): the spacebar (keyCode 32) spawns at the canvas center by
calling spawnFruit directly, without going through attemptSpawnAtScreenX
and its debounce. The canvas width equals the window innerWidth. -/
def keyPressed (st : GameState) (now rvx rvy : ℚ) (pickRand newPick : ℕ)
    (keyCode : ℤ) : GameState :=
  if ¬st.isRunning ∨ st.gameOver then st
  else if keyCode = 32 then
    spawnFruit st now rvx rvy (some (st.iw / 2)) none pickRand newPick
  else st

/-- The per-body transform of windowResized: positions and velocities are
rescaled by the board-width ratio relative to the board origins. The fruit
tag, and with it the radius, is left untouched. -/
def resizeBody (oldRect newRect : BoardRect) (b : PBody) : PBody :=
  let sx := newRect.boardW / oldRect.boardW
  { b with x := newRect.boardX + (b.x - oldRect.boardX) * sx,
           y := newRect.boardY + (b.y - oldRect.boardY) * sx,
           vx := b.vx * sx, vy := b.vy * sx }

/-- windowResized(): recompute the board rect from the new window size,
rescale every body from the cached previous rect, and cache the new rect.
Wall rebuilding (createBounds) only affects static bodies, which are not
in the fruit list. -/
def windowResized (st : GameState) (newIw newIh : ℚ) : GameState :=
  let oldRect := st.previousBoardRect
  let newRect := computeBoardRect newIw newIh
  { st with iw := newIw, ih := newIh,
            bodies := st.bodies.map (resizeBody oldRect newRect),
            previousBoardRect := newRect }

/-- handleClearSmall(): when unlocked and charged, remove every fruit of
level at most 2 from the world, keep only bodies with a fruit tag of level
above 2 in the array, and reset the charge. -/
def handleClearSmall (st : GameState) : GameState :=
  if ¬st.clearUnlocked ∨ ¬st.clearAvailable then st
  else
    { st with
      worldIds := st.worldIds.filter (fun i =>
        !(st.bodies.any (fun b =>
          b.id == i &&
          (match b.fruit with
           | some f => decide (f.level ≤ 2)
           | none => false)))),
      bodies := st.bodies.filter (fun b =>
        match b.fruit with
        | some f => decide (2 < f.level)
        | none => false),
      clearAvailable := false, pointsAccumSinceClear := 0, clearUsed := true }

/-- startGame(): clear all fruits, reset the score to zero, leave the high
score and its persisted slot untouched, restart the round and reset the
ClearSmall charge per the source branches. -/
def startGame (st : GameState) : GameState :=
  let st1 := { st with
    worldIds := st.worldIds.filter (fun i => !(st.bodies.any (fun b => b.id == i))),
    bodies := [] }
  let st2 := { st1 with score := 0, gameOver := false, isRunning := true,
                        nextPick := some 1 }
  if ¬st2.clearUnlocked then
    { st2 with clearAvailable := false, pointsAccumSinceClear := 0 }
  else if ¬st2.clearUsed then
    { st2 with clearAvailable := true, pointsAccumSinceClear := 0 }
  else
    { st2 with pointsAccumSinceClear := 0 }

/-- A quiescent base state on a 1000 by 1000 window (board width 780). -/
def st0 : GameState :=
  { iw := 1000, ih := 1000, previousBoardRect := computeBoardRect 1000 1000,
    bodies := [], worldIds := [], nextId := 1, score := 0, high := 0,
    stored := none, gameOver := false, isRunning := false,
    mergedThisStep := [], chainCount := 0, lastMergeTime := 0,
    lastSpawnTime := 0, lastSpawnAt := 0, nextPick := some 1,
    pointsAccumSinceClear := 0, clearUnlocked := false,
    clearAvailable := false, clearUsed := false }

/-- Two touching level-1 fruits on the 1000 by 1000 board (radius 16 =
radiusForLevel there). -/
def bA1 : PBody :=
  { id := 1, x := 300, y := 600, vx := 0, vy := 0,
    fruit := some { level := 1, radius := 16, wobble := 0 },
    spawnTime := 10, isStatic := false }

def bB1 : PBody :=
  { id := 2, x := 332, y := 600, vx := 0, vy := 0,
    fruit := some { level := 1, radius := 16, wobble := 0 },
    spawnTime := 10, isStatic := false }

/-- A running state holding the two touching level-1 fruits. -/
def stC1 : GameState :=
  { st0 with bodies := [bA1, bB1], worldIds := [1, 2], nextId := 3,
             isRunning := true }

/-- A maximum-tier fruit used for saturation states. -/
def mkMax (i : ℕ) : PBody :=
  { id := i, x := 100 + (i : ℚ) * 80, y := 600, vx := 0, vy := 0,
    fruit := some { level := 9, radius := 100, wobble := 0 },
    spawnTime := 10, isStatic := false }

/-- A running state saturated with five maximum-tier fruits. -/
def stS : GameState :=
  { st0 with bodies := [mkMax 1, mkMax 2, mkMax 3, mkMax 4, mkMax 5],
             worldIds := [1, 2, 3, 4, 5], nextId := 6, isRunning := true }

/-- A level-1 fruit sitting at x = 400, y = 400 on the 1000 by 1000 board. -/
def bR : PBody :=
  { id := 1, x := 400, y := 400, vx := 0, vy := 0,
    fruit := some { level := 1, radius := 16, wobble := 0 },
    spawnTime := 10, isStatic := false }

/-- A running state holding bR, with the cached board rect of the
1000 by 1000 window. -/
def stR : GameState :=
  { st0 with bodies := [bR], worldIds := [1], nextId := 2, isRunning := true }

/-- A fruit created at millisecond 0 (spawn stamp 0), resting above the
danger line. -/
def bG : PBody :=
  { id := 1, x := 400, y := 100, vx := 0, vy := 0,
    fruit := some { level := 1, radius := 16, wobble := 0 },
    spawnTime := 0, isStatic := false }

/-- A running state holding bG. -/
def stG : GameState :=
  { st0 with bodies := [bG], worldIds := [1], nextId := 2, isRunning := true }

/-- The same fruit with a nonzero spawn stamp (50 ms). -/
def bG6 : PBody :=
  { id := 1, x := 400, y := 100, vx := 0, vy := 0,
    fruit := some { level := 1, radius := 16, wobble := 0 },
    spawnTime := 50, isStatic := false }

/-- A running state holding bG6. -/
def stG6 : GameState :=
  { st0 with bodies := [bG6], worldIds := [1], nextId := 2, isRunning := true }

/-- A running state whose last accepted spawn attempt was at 100 ms. -/
def stK : GameState :=
  { st0 with isRunning := true, lastSpawnAt := 100 }

/-- A state whose round already ended. -/
def stGO : GameState :=
  { st0 with gameOver := true }

/-- A running state holding one maximum-tier fruit. -/
def stM10 : GameState :=
  { st0 with bodies := [mkMax 1], worldIds := [1], nextId := 2,
             isRunning := true }

theorem jsRound_intCast (z : ℤ) : jsRound (z : ℚ) = z := by
  unfold jsRound
  rw [add_comm, Int.floor_add_int]
  norm_num

theorem chainMultiplier_of_le_one (c : ℕ) (h : c ≤ 1) : chainMultiplier c = 1 := by
  unfold chainMultiplier
  have h0 : c - 1 = 0 := by omega
  rw [h0]
  norm_num

theorem levelPts_eq (l : ℕ) : levelPts l = 8 * 2 ^ (l - 1) := by
  unfold levelPts
  rw [show ((8:ℚ) * 2 ^ (l - 1)) = (((8 * 2 ^ (l - 1) : ℤ)) : ℚ) by push_cast; ring]
  exact jsRound_intCast _

theorem scoreForMerge_no_chain (l c : ℕ) (h : c ≤ 1) :
    scoreForMerge l c = basePoints l := by
  unfold scoreForMerge basePoints
  rw [chainMultiplier_of_le_one c h, mul_one, levelPts_eq, jsRound_intCast]

theorem one_le_scoreForMerge (l c : ℕ) : 1 ≤ scoreForMerge l c :=
  le_max_left _ _

theorem chainMultiplier_big (c : ℕ) (h : 6 ≤ c) : chainMultiplier c = 1 + 6/10 := by
  unfold chainMultiplier
  congr 1
  apply min_eq_left
  have h5 : (5:ℚ) ≤ ((c - 1 : ℕ) : ℚ) := by
    have h5n : (5:ℕ) ≤ c - 1 := by omega
    exact_mod_cast h5n
  linarith

theorem chainMultiplier_min6 (c : ℕ) : chainMultiplier c = chainMultiplier (min c 6) := by
  rcases le_total c 6 with h | h
  · rw [min_eq_left h]
  · rw [min_eq_right h, chainMultiplier_big c h, chainMultiplier_big 6 le_rfl]

theorem scoreForMerge_chain_min6 (l c : ℕ) :
    scoreForMerge l c = scoreForMerge l (min c 6) := by
  unfold scoreForMerge
  rw [chainMultiplier_min6]

set_option maxHeartbeats 1600000 in
/-- Claim C4 (confirmed): for every merge scored at tier k with no active
combo (chain count at most 1) the awarded score equals basePoints(k), and
for any fixed combo state the awarded score is strictly increasing in the
tier over the valid tier range 1..MAX_LEVEL. -/
theorem C4_scoring :
    (∀ level chain, chain ≤ 1 → scoreForMerge level chain = basePoints level)
    ∧ (∀ chain k j, 1 ≤ k → k < j → j ≤ MAX_LEVEL →
        scoreForMerge k chain < scoreForMerge j chain) := by
  constructor
  · exact fun l c h => scoreForMerge_no_chain l c h
  · intro c k j hk hkj hj
    rw [scoreForMerge_chain_min6 k c, scoreForMerge_chain_min6 j c]
    have hc : min c 6 ≤ 6 := min_le_right _ _
    have hk8 : k ≤ 8 := by unfold MAX_LEVEL at hj; omega
    have hj9 : j ≤ 9 := by unfold MAX_LEVEL at hj; omega
    revert hc
    generalize min c 6 = c6
    intro hc
    interval_cases c6 <;> interval_cases k <;> interval_cases j <;>
      norm_num [scoreForMerge, levelPts, chainMultiplier, jsRound]

/-- Claim C4 witness: the theorem applied at tier 2 with no combo and at
the tier pair 2 < 3 with chain count 3. -/
theorem C4_scoring_witness :
    scoreForMerge 2 1 = basePoints 2 ∧ scoreForMerge 2 3 < scoreForMerge 3 3 :=
  ⟨C4_scoring.1 2 1 (by decide), C4_scoring.2 3 2 3 (by decide) (by decide) (by decide)⟩

/-- Claim C5 (confirmed): a deferred merge check that finds either body
missing from the live list, or either body with a tier other than the one
observed at scheduling time, is a silent no-op: the state, and with it the
body list and the score, is unchanged. -/
theorem C5_stale_noop (st : GameState) (now rvx rvy : ℚ) (idA idB lev : ℕ)
    (h : st.bodies.find? (fun b => b.id == idA) = none
       ∨ st.bodies.find? (fun b => b.id == idB) = none
       ∨ (∃ bA, st.bodies.find? (fun b => b.id == idA) = some bA
            ∧ bA.fruit.map Fruit.level ≠ some lev)
       ∨ (∃ bB, st.bodies.find? (fun b => b.id == idB) = some bB
            ∧ bB.fruit.map Fruit.level ≠ some lev)) :
    mergeCheckCallback st now rvx rvy idA idB lev = st := by
  unfold mergeCheckCallback
  rcases h with h | h | ⟨bA, hA, hl⟩ | ⟨bB, hB, hl⟩
  · rw [h]
  · rw [h]
    cases st.bodies.find? (fun b => b.id == idA) <;> rfl
  · rw [hA]
    cases hB : st.bodies.find? (fun b => b.id == idB) with
    | none => rfl
    | some bB =>
      try dsimp only
      cases hfa : bA.fruit with
      | none => rfl
      | some fA =>
        try dsimp only
        cases hfb : bB.fruit with
        | none => rfl
        | some fB =>
          try dsimp only
          rw [hfa] at hl
          simp only [Option.map_some'] at hl
          have hne : fA.level ≠ lev := fun hEq => hl (by rw [hEq])
          rw [if_pos (Or.inl hne)]
  · rw [hB]
    cases hA : st.bodies.find? (fun b => b.id == idA) with
    | none => rfl
    | some bA =>
      try dsimp only
      cases hfa : bA.fruit with
      | none => rfl
      | some fA =>
        try dsimp only
        cases hfb : bB.fruit with
        | none => rfl
        | some fB =>
          try dsimp only
          rw [hfb] at hl
          simp only [Option.map_some'] at hl
          have hne : fB.level ≠ lev := fun hEq => hl (by rw [hEq])
          rw [if_pos (Or.inr hne)]

/-- Claim C5 witness: the theorem applied to a state with no bodies, where
both lookups miss. -/
theorem C5_stale_noop_witness : mergeCheckCallback st0 0 0 0 1 2 3 = st0 :=
  C5_stale_noop st0 0 0 0 1 2 3 (Or.inl rfl)

theorem supernovaCheck_of_gameOver (st : GameState) (h : st.gameOver = true) :
    supernovaCheck st = st := by
  unfold supernovaCheck
  split
  · next hc => simp [h] at hc
  · rfl

theorem gameOverCheck_of_gameOver (st : GameState) (now : ℚ)
    (h : st.gameOver = true) : gameOverCheck st now = st := by
  unfold gameOverCheck
  split
  · next hc => simp [h] at hc
  · rfl

theorem gameOver_drawRoundChecks (st : GameState) (now : ℚ)
    (h : st.gameOver = true) : drawRoundChecks st now = st := by
  unfold drawRoundChecks
  rw [supernovaCheck_of_gameOver st h, gameOverCheck_of_gameOver st now h]

/-- Claim C8 (confirmed): the round-ending transitions are idempotent: once
the game-over flag is set (by the danger-line trigger or the terminal
clear), re-running the end-of-frame overflow and saturation checks changes
nothing, and these checks never change the score. -/
theorem C8_idempotent (st : GameState) (now now2 : ℚ) :
    (st.gameOver = true → drawRoundChecks st now = st)
    ∧ (drawRoundChecks st now).score = st.score
    ∧ ((drawRoundChecks st now).gameOver = true →
        drawRoundChecks (drawRoundChecks st now) now2 = drawRoundChecks st now) := by
  refine ⟨fun h => gameOver_drawRoundChecks st now h, ?_,
          fun h => gameOver_drawRoundChecks _ now2 h⟩
  unfold drawRoundChecks supernovaCheck gameOverCheck triggerGameOver
    triggerFruitSupernova
  split_ifs <;> rfl

/-- Claim C8 witness: the theorem applied to a state whose round already
ended. -/
theorem C8_idempotent_witness : drawRoundChecks stGO 0 = stGO :=
  (C8_idempotent stGO 0 0).1 rfl

theorem scheduleMergeCheck_lev (A B : PBody) (c : PendingCheck)
    (h : scheduleMergeCheck A B = some c) : c.lev < MAX_LEVEL := by
  unfold scheduleMergeCheck at h
  cases hfa : A.fruit with
  | none => rw [hfa] at h; cases h
  | some fa =>
    rw [hfa] at h
    try dsimp only at h
    by_cases hl : MAX_LEVEL ≤ fa.level
    · rw [if_pos hl] at h; cases h
    · rw [if_neg hl] at h
      cases h
      simpa using Nat.lt_of_not_le hl

theorem tryMergePair_max (st : GameState) (now rvx rvy : ℚ) (A B : PBody)
    (fa : Fruit) (hA : A.fruit = some fa) (hl : MAX_LEVEL ≤ fa.level) :
    tryMergePair st now rvx rvy A B = st := by
  unfold tryMergePair
  split
  · rfl
  · rw [hA]
    cases hB : B.fruit with
    | none => rfl
    | some fb =>
      try dsimp only
      rw [if_pos hl]

/-- Claim C10 (confirmed): two maximum-tier bodies never merge. Every
deferred check scheduled by the collision handler carries a tier below
MAX_LEVEL, tryMergePair on a maximum-tier source leaves the state exactly
unchanged, and a deferred callback carrying the maximum tier is always a
no-op, so no merge event consumes a maximum-tier body. -/
theorem C10_max_tier :
    (∀ pairs c, c ∈ onCollision pairs → c.lev < MAX_LEVEL)
    ∧ (∀ st now rvx rvy A B fa, A.fruit = some fa → MAX_LEVEL ≤ fa.level →
        tryMergePair st now rvx rvy A B = st)
    ∧ (∀ st now rvx rvy iA iB,
        mergeCheckCallback st now rvx rvy iA iB MAX_LEVEL = st) := by
  refine ⟨?_, fun st now rvx rvy A B fa hA hl =>
    tryMergePair_max st now rvx rvy A B fa hA hl, ?_⟩
  · intro pairs c hc
    unfold onCollision at hc
    rw [List.mem_filterMap] at hc
    obtain ⟨p, hp, hpc⟩ := hc
    try dsimp only at hpc
    cases hfa : p.1.fruit with
    | none => rw [hfa] at hpc; cases hpc
    | some fa =>
      cases hfb : p.2.fruit with
      | none => rw [hfa, hfb] at hpc; cases hpc
      | some fb =>
        rw [hfa, hfb] at hpc
        try dsimp only at hpc
        split_ifs at hpc
        · exact scheduleMergeCheck_lev _ _ _ hpc
  · intro st now rvx rvy iA iB
    unfold mergeCheckCallback
    cases hA : st.bodies.find? (fun b => b.id == iA) with
    | none => rfl
    | some bA =>
      cases hB : st.bodies.find? (fun b => b.id == iB) with
      | none => rfl
      | some bB =>
        try dsimp only
        cases hfa : bA.fruit with
        | none => rfl
        | some fA =>
          try dsimp only
          cases hfb : bB.fruit with
          | none => rfl
          | some fB =>
            try dsimp only
            by_cases hlev : fA.level ≠ MAX_LEVEL ∨ fB.level ≠ MAX_LEVEL
            · rw [if_pos hlev]
            · rw [if_neg hlev]
              push_neg at hlev
              split
              · exact tryMergePair_max st now rvx rvy bA bB fA hfa
                  (le_of_eq hlev.1.symm)
              · rfl

/-- Claim C10 witness: the theorem applied to a running state holding one
maximum-tier fruit, and to a callback carrying the maximum tier. -/
theorem C10_max_tier_witness :
    tryMergePair stM10 0 0 0 (mkMax 1) (mkMax 1) = stM10
    ∧ mergeCheckCallback stM10 0 0 0 1 2 MAX_LEVEL = stM10 :=
  ⟨C10_max_tier.2.1 stM10 0 0 0 (mkMax 1) (mkMax 1)
      { level := 9, radius := 100, wobble := 0 } rfl (by decide),
   C10_max_tier.2.2 stM10 0 0 0 1 2⟩

/-- Claim C2 counterexample: in a running state saturated with five
maximum-tier bodies, the end-of-frame checks set the gameOver flag and
stop the game, so the resulting state is a game over and the round does
not continue, refuting the claimed non-loss Cleared state. -/
theorem C2_counterexample :
    5 ≤ terminalCount stS.bodies
    ∧ stS.gameOver = false
    ∧ (drawRoundChecks stS 1000).gameOver = true
    ∧ (drawRoundChecks stS 1000).isRunning = false := by
  refine ⟨?_, rfl, ?_, ?_⟩ <;>
    norm_num [drawRoundChecks, supernovaCheck, gameOverCheck,
      triggerFruitSupernova, terminalCount, stS, st0, mkMax, MAX_LEVEL]

/-- Claim C2 (corrected): whenever five or more maximum-tier bodies exist
and the round is not already over, the end-of-frame checks clear the whole
board but end the round: the state is exactly the supernova state, with no
bodies, the gameOver flag set, the game stopped, and the score unchanged. -/
theorem C2_supernova_amended (st : GameState) (now : ℚ)
    (hgo : st.gameOver = false) (hsat : 5 ≤ terminalCount st.bodies) :
    drawRoundChecks st now = triggerFruitSupernova st
    ∧ (drawRoundChecks st now).bodies = []
    ∧ (drawRoundChecks st now).gameOver = true
    ∧ (drawRoundChecks st now).isRunning = false
    ∧ (drawRoundChecks st now).score = st.score := by
  have h1 : supernovaCheck st = triggerFruitSupernova st := by
    unfold supernovaCheck
    rw [if_pos ⟨by simp [hgo], hsat⟩]
  have h2 : drawRoundChecks st now = triggerFruitSupernova st := by
    unfold drawRoundChecks
    rw [h1, gameOverCheck_of_gameOver _ now rfl]
  refine ⟨h2, ?_, ?_, ?_, ?_⟩ <;> (rw [h2]; rfl)

/-- Claim C2 witness: the amended theorem applied to the saturated
state. -/
theorem C2_supernova_amended_witness :
    (drawRoundChecks stS 1000).bodies = []
    ∧ (drawRoundChecks stS 1000).score = stS.score := by
  have h := C2_supernova_amended stS 1000 rfl
    (by norm_num [terminalCount, stS, st0, mkMax, MAX_LEVEL])
  exact ⟨h.2.1, h.2.2.2.2⟩

/-- Claim C6 counterexample: a body whose recorded spawn stamp is 0 (created
at millisecond zero) and whose age, 400 ms, is inside the 900 ms grace
period still triggers the game-over transition when it rests above the
danger line, because the JS guard tests truthiness of the stamp. -/
theorem C6_counterexample :
    (400 : ℚ) - bG.spawnTime < SPAWN_GRACE_MS
    ∧ stG.gameOver = false
    ∧ (drawRoundChecks stG 400).gameOver = true := by
  refine ⟨by norm_num [bG, SPAWN_GRACE_MS], rfl, ?_⟩
  norm_num [drawRoundChecks, supernovaCheck, gameOverCheck, triggerGameOver,
    terminalCount, bodyOverLine, stG, st0, bG, MAX_LEVEL, SPAWN_GRACE_MS,
    computeBoardRect]

/-- Claim C6 (corrected): a body whose recorded spawn stamp is nonzero and
whose age is below the grace period never passes the danger-line test, and
a running, unsaturated state all of whose bodies are inside the grace
period with nonzero stamps is left exactly unchanged by the end-of-frame
checks; the exemption does not cover a body whose stamp is exactly 0. -/
theorem C6_grace_amended (rect : BoardRect) (now : ℚ) (b : PBody)
    (st : GameState) (hb : b.spawnTime ≠ 0)
    (hage : now - b.spawnTime < SPAWN_GRACE_MS) :
    bodyOverLine rect now b = false
    ∧ (st.gameOver = false → terminalCount st.bodies < 5 →
        (∀ bb ∈ st.bodies, bb.spawnTime ≠ 0 ∧ now - bb.spawnTime < SPAWN_GRACE_MS) →
        drawRoundChecks st now = st) := by
  have key : ∀ c : PBody, c.spawnTime ≠ 0 → now - c.spawnTime < SPAWN_GRACE_MS →
      ∀ r : BoardRect, bodyOverLine r now c = false := by
    intro c hc hca r
    unfold bodyOverLine
    cases hf : c.fruit with
    | none => rfl
    | some f =>
      try dsimp only
      rw [if_pos ⟨hc, hca⟩]
  refine ⟨key b hb hage rect, fun hgo hcnt hall => ?_⟩
  unfold drawRoundChecks
  have h1 : supernovaCheck st = st := by
    unfold supernovaCheck
    rw [if_neg (fun hc => absurd hc.2 (by omega))]
  rw [h1]
  unfold gameOverCheck
  rw [if_neg]
  rintro ⟨hngo, hany⟩
  rw [List.any_eq_true] at hany
  obtain ⟨bb, hbbmem, hbb⟩ := hany
  rw [key bb (hall bb hbbmem).1 (hall bb hbbmem).2 _] at hbb
  cases hbb

/-- Claim C6 witness: the amended theorem applied to the in-grace body with
stamp 50 ms at time 400 ms. -/
theorem C6_grace_amended_witness :
    bodyOverLine (computeBoardRect 1000 1000) 400 bG6 = false
    ∧ drawRoundChecks stG6 400 = stG6 := by
  have h := C6_grace_amended (computeBoardRect 1000 1000) 400 bG6 stG6
    (by norm_num [bG6]) (by norm_num [bG6, SPAWN_GRACE_MS])
  refine ⟨h.1, h.2 rfl (by norm_num [terminalCount, stG6, st0, bG6, MAX_LEVEL]) ?_⟩
  intro bb hbb
  have hbb2 : bb = bG6 := by simpa [stG6, st0] using hbb
  subst hbb2
  exact ⟨by norm_num [bG6], by norm_num [bG6, SPAWN_GRACE_MS]⟩

/-- Claim C7 counterexample: in a running state whose last accepted spawn
attempt was 50 ms ago (inside the 200 ms debounce window), the spacebar
handler still creates a body, because keyPressed calls spawnFruit directly
and bypasses the debounce. -/
theorem C7_counterexample :
    (150 : ℚ) - stK.lastSpawnAt < SPAWN_DEBOUNCE
    ∧ (keyPressed stK 150 0 0 1 1 32).bodies.length = stK.bodies.length + 1 := by
  constructor
  · norm_num [stK, st0, SPAWN_DEBOUNCE]
  · unfold keyPressed
    rw [if_neg (by simp [stK, st0]), if_pos rfl]
    unfold spawnFruit
    rw [if_neg (by simp [stK, st0])]
    simp

/-- Claim C7 (corrected): the pointer-initiated spawn path enforces the
debounce: an attempt arriving earlier than SPAWN_DEBOUNCE after the last
accepted attempt leaves the state exactly unchanged and creates no body;
the dedicated key (spacebar) bypasses the debounce and always creates one
body while the game is running. -/
theorem C7_debounce_amended (st : GameState) (now rvx rvy sx : ℚ) (p n : ℕ)
    (hd : now - st.lastSpawnAt < SPAWN_DEBOUNCE) :
    attemptSpawnAtScreenX st now rvx rvy sx p n = st
    ∧ (∀ st2 now2 rvx2 rvy2 p2 n2, st2.isRunning = true → st2.gameOver = false →
        (keyPressed st2 now2 rvx2 rvy2 p2 n2 32).bodies.length
          = st2.bodies.length + 1) := by
  constructor
  · unfold attemptSpawnAtScreenX
    rw [if_pos hd]
  · intro st2 now2 rvx2 rvy2 p2 n2 hrun hgo
    unfold keyPressed
    rw [if_neg (by simp [hrun, hgo]), if_pos rfl]
    unfold spawnFruit
    rw [if_neg (by simp [hrun, hgo])]
    simp

/-- Claim C7 witness: the amended theorem applied to the debounced state at
time 150 ms. -/
theorem C7_debounce_amended_witness :
    attemptSpawnAtScreenX stK 150 0 0 500 1 1 = stK
    ∧ (keyPressed stK 150 0 0 1 1 32).bodies.length = stK.bodies.length + 1 := by
  have h := C7_debounce_amended stK 150 0 0 500 1 1
    (by norm_num [stK, st0, SPAWN_DEBOUNCE])
  exact ⟨h.1, h.2 stK 150 0 0 1 1 rfl rfl⟩

/-- Claim C3 counterexample: after resizing the 1000 by 1000 window (board
width 780) down to 500 by 500 (board width 390, scale one half), the
existing body still carries its old radius 16: radii are not rescaled
proportionally, refuting the claimed radius rescaling. -/
theorem C3_counterexample :
    ((windowResized stR 500 500).bodies.map (fun b => b.fruit.map Fruit.radius)
       = [some 16])
    ∧ (computeBoardRect 500 500).boardW / (computeBoardRect 1000 1000).boardW = 1/2
    ∧ ((16 : ℚ) ≠ 16 * ((computeBoardRect 500 500).boardW
          / (computeBoardRect 1000 1000).boardW)) := by
  refine ⟨?_, ?_, ?_⟩
  · norm_num [windowResized, resizeBody, computeBoardRect, stR, st0, bR]
  · norm_num [computeBoardRect]
  · norm_num [computeBoardRect]

theorem resizeBody_rel (oldR newR : BoardRect) (b : PBody)
    (hold : oldR.boardW ≠ 0) (hnew : newR.boardW ≠ 0) :
    ((resizeBody oldR newR b).x - newR.boardX) / newR.boardW
       = (b.x - oldR.boardX) / oldR.boardW
    ∧ ((resizeBody oldR newR b).y - newR.boardY) / newR.boardW
       = (b.y - oldR.boardY) / oldR.boardW
    ∧ (resizeBody oldR newR b).fruit = b.fruit := by
  unfold resizeBody
  refine ⟨?_, ?_, rfl⟩ <;> (dsimp only; field_simp; ring)

/-- Claim C3 (corrected): a viewport resize maps every body through
resizeBody, which preserves the relative board position of every body
exactly (positions and velocities are rescaled by the board-width ratio)
but leaves the fruit tag, and with it the radius, untouched: radii are not
rescaled. -/
theorem C3_resize_amended (st : GameState) (niw nih : ℚ) (b : PBody)
    (hold : st.previousBoardRect.boardW ≠ 0)
    (hnew : (computeBoardRect niw nih).boardW ≠ 0) :
    (windowResized st niw nih).bodies
      = st.bodies.map (resizeBody st.previousBoardRect (computeBoardRect niw nih))
    ∧ ((resizeBody st.previousBoardRect (computeBoardRect niw nih) b).x
         - (computeBoardRect niw nih).boardX) / (computeBoardRect niw nih).boardW
      = (b.x - st.previousBoardRect.boardX) / st.previousBoardRect.boardW
    ∧ ((resizeBody st.previousBoardRect (computeBoardRect niw nih) b).y
         - (computeBoardRect niw nih).boardY) / (computeBoardRect niw nih).boardW
      = (b.y - st.previousBoardRect.boardY) / st.previousBoardRect.boardW
    ∧ (resizeBody st.previousBoardRect (computeBoardRect niw nih) b).fruit
      = b.fruit := by
  have h := resizeBody_rel st.previousBoardRect (computeBoardRect niw nih) b
    hold hnew
  exact ⟨rfl, h.1, h.2.1, h.2.2⟩

/-- Claim C3 witness: the amended theorem applied to the resize from the
1000 by 1000 window to 500 by 500 with the body bR. -/
theorem C3_resize_amended_witness :
    ((resizeBody stR.previousBoardRect (computeBoardRect 500 500) bR).x
       - (computeBoardRect 500 500).boardX) / (computeBoardRect 500 500).boardW
      = (bR.x - stR.previousBoardRect.boardX) / stR.previousBoardRect.boardW
    ∧ (resizeBody stR.previousBoardRect (computeBoardRect 500 500) bR).fruit
      = bR.fruit := by
  have h := C3_resize_amended stR 500 500 bR
    (by norm_num [stR, st0, computeBoardRect])
    (by norm_num [computeBoardRect])
  exact ⟨h.2.1, h.2.2.2⟩

theorem dropLast_append_singleton (l : List PBody) (a : PBody) :
    (l ++ [a]).dropLast = l := by
  simp

theorem mergeInsert_eq (st : GameState) (now rvx rvy : ℚ) (A B : PBody)
    (level : ℕ) :
    mergeInsert st now rvx rvy A B level
      = { st with
          worldIds := st.worldIds.filter (fun i => !(i == A.id) && !(i == B.id))
            ++ [st.nextId],
          bodies := st.bodies.filter (fun bb => !(bb.id == A.id) && !(bb.id == B.id))
            ++ [setWobble (clampBodyInsideBoard st.iw st.ih
                 { id := st.nextId, x := (A.x + B.x) / 2, y := (A.y + B.y) / 2 - 6,
                   vx := rvx, vy := rvy,
                   fruit := some { level := level,
                                   radius := radiusForLevel st.iw st.ih level,
                                   wobble := 0 },
                   spawnTime := now, isStatic := false })],
          nextId := st.nextId + 1 } := by
  unfold mergeInsert createFruitAt
  dsimp only
  rw [dropLast_append_singleton]

theorem tryMergePair_run (st : GameState) (now rvx rvy : ℚ) (A B : PBody)
    (fa fb : Fruit) (hA : A.fruit = some fa) (hB : B.fruit = some fb)
    (hlev : fa.level < MAX_LEVEL)
    (hmA : A.id ∉ st.mergedThisStep) (hmB : B.id ∉ st.mergedThisStep)
    (hwA : A.id ∈ st.worldIds) (hwB : B.id ∈ st.worldIds) :
    tryMergePair st now rvx rvy A B
      = mergeExec { st with mergedThisStep := st.mergedThisStep ++ [A.id, B.id] }
          now rvx rvy A B fa := by
  unfold tryMergePair
  rw [if_neg (fun h => h.elim hmA hmB), hA, hB]
  try dsimp only
  rw [if_neg (Nat.not_le.mpr hlev),
      if_neg (fun h => h.elim (fun h1 => h1 hwA) (fun h2 => h2 hwB))]

theorem mergeExec_score (st : GameState) (now rvx rvy : ℚ) (A B : PBody)
    (fa : Fruit) :
    (mergeExec st now rvx rvy A B fa).score
      = st.score + scoreForMerge (min (fa.level + 1) MAX_LEVEL)
          (newChainCount st now) := by
  unfold mergeExec mergeInsert createFruitAt recordMergeForChain applyMergeScore
    clearChargeUpdate newChainCount
  dsimp only
  split_ifs <;> rfl

theorem mergeExec_high (st : GameState) (now rvx rvy : ℚ) (A B : PBody)
    (fa : Fruit) :
    (mergeExec st now rvx rvy A B fa).high
      = (if st.high < st.score + scoreForMerge (min (fa.level + 1) MAX_LEVEL)
            (newChainCount st now)
         then st.score + scoreForMerge (min (fa.level + 1) MAX_LEVEL)
            (newChainCount st now)
         else st.high) := by
  unfold mergeExec mergeInsert createFruitAt recordMergeForChain applyMergeScore
    clearChargeUpdate newChainCount
  dsimp only
  split_ifs <;> rfl

theorem mergeExec_stored (st : GameState) (now rvx rvy : ℚ) (A B : PBody)
    (fa : Fruit) :
    (mergeExec st now rvx rvy A B fa).stored
      = (if st.high < st.score + scoreForMerge (min (fa.level + 1) MAX_LEVEL)
            (newChainCount st now)
         then some (st.score + scoreForMerge (min (fa.level + 1) MAX_LEVEL)
            (newChainCount st now))
         else st.stored) := by
  unfold mergeExec mergeInsert createFruitAt recordMergeForChain applyMergeScore
    clearChargeUpdate newChainCount
  dsimp only
  split_ifs <;> rfl

theorem mergeExec_bodies (st : GameState) (now rvx rvy : ℚ) (A B : PBody)
    (fa : Fruit) :
    (mergeExec st now rvx rvy A B fa).bodies
      = (mergeInsert st now rvx rvy A B (min (fa.level + 1) MAX_LEVEL)).bodies := by
  unfold mergeExec recordMergeForChain applyMergeScore clearChargeUpdate
  dsimp only
  split_ifs <;> rfl

theorem mergeExec_worldIds (st : GameState) (now rvx rvy : ℚ) (A B : PBody)
    (fa : Fruit) :
    (mergeExec st now rvx rvy A B fa).worldIds
      = (mergeInsert st now rvx rvy A B (min (fa.level + 1) MAX_LEVEL)).worldIds := by
  unfold mergeExec recordMergeForChain applyMergeScore clearChargeUpdate
  dsimp only
  split_ifs <;> rfl

/-- Claim C1 counterexample: merging the two touching level-1 fruits at
y = 600 produces exactly one level-2 body, but at y = 594: the new body is
created 6 pixels above the vertical midpoint of the pair, not at the
midpoint. -/
theorem C1_counterexample :
    ((tryMergePair stC1 100 0 0 bA1 bB1).bodies.map
        (fun b => (b.y, b.fruit.map Fruit.level)) = [(594, some 2)])
    ∧ (bA1.y + bB1.y) / 2 = 600
    ∧ (594 : ℚ) ≠ 600 := by
  refine ⟨?_, by norm_num [bA1, bB1], by norm_num⟩
  norm_num [tryMergePair, mergeExec, mergeInsert, createFruitAt,
    recordMergeForChain, newChainCount, applyMergeScore, clearChargeUpdate,
    setWobble, clampBodyInsideBoard, scoreForMerge, levelPts, chainMultiplier,
    jsRound, radiusForLevel, computeBoardRect, stC1, st0, bA1, bB1, MAX_LEVEL,
    RADIUS_BASE_FRAC, RADIUS_GROWTH, MAX_RADIUS_FRAC, CHAIN_TIMEOUT,
    CLEAR_UNLOCK_SCORE, CLEAR_RECHARGE_POINTS]

/-- Claim C1 (corrected): for every confirmed merge of two same-tier
bodies of tier k below the maximum tier, both source bodies are removed
from the world id list and the live-body list, and exactly one new body is
inserted, at the horizontal midpoint of the pair and 6 pixels above the
vertical midpoint (then clamped inside the board), with tier
min(maxTier, k+1) = k+1. -/
theorem C1_merge_amended (st : GameState) (now rvx rvy : ℚ) (A B : PBody)
    (fa fb : Fruit) (hA : A.fruit = some fa) (hB : B.fruit = some fb)
    (hlev : fa.level < MAX_LEVEL)
    (hmA : A.id ∉ st.mergedThisStep) (hmB : B.id ∉ st.mergedThisStep)
    (hwA : A.id ∈ st.worldIds) (hwB : B.id ∈ st.worldIds) :
    (tryMergePair st now rvx rvy A B).bodies
      = st.bodies.filter (fun bb => !(bb.id == A.id) && !(bb.id == B.id))
        ++ [setWobble (clampBodyInsideBoard st.iw st.ih
             { id := st.nextId, x := (A.x + B.x) / 2, y := (A.y + B.y) / 2 - 6,
               vx := rvx, vy := rvy,
               fruit := some { level := fa.level + 1,
                               radius := radiusForLevel st.iw st.ih (fa.level + 1),
                               wobble := 0 },
               spawnTime := now, isStatic := false })]
    ∧ (tryMergePair st now rvx rvy A B).worldIds
      = st.worldIds.filter (fun i => !(i == A.id) && !(i == B.id)) ++ [st.nextId]
    ∧ min (fa.level + 1) MAX_LEVEL = fa.level + 1 := by
  have hmin : min (fa.level + 1) MAX_LEVEL = fa.level + 1 := min_eq_left hlev
  rw [tryMergePair_run st now rvx rvy A B fa fb hA hB hlev hmA hmB hwA hwB]
  refine ⟨?_, ?_, hmin⟩
  · rw [mergeExec_bodies, mergeInsert_eq, hmin]
  · rw [mergeExec_worldIds, mergeInsert_eq]

/-- Claim C1 witness: the amended theorem applied to the two touching
level-1 fruits; both sources leave the world and exactly one body
remains. -/
theorem C1_merge_amended_witness :
    (tryMergePair stC1 100 0 0 bA1 bB1).worldIds = [3]
    ∧ (tryMergePair stC1 100 0 0 bA1 bB1).bodies.length = 1 := by
  have h := C1_merge_amended stC1 100 0 0 bA1 bB1
    { level := 1, radius := 16, wobble := 0 }
    { level := 1, radius := 16, wobble := 0 }
    rfl rfl (by decide) (by decide) (by decide) (by decide) (by decide)
  constructor
  · rw [h.2.1]
    simp [stC1, st0, bA1, bB1]
  · rw [h.1]
    simp [stC1, st0, bA1, bB1]

theorem tryMergePair_score_le (st : GameState) (now rvx rvy : ℚ) (A B : PBody) :
    st.score ≤ (tryMergePair st now rvx rvy A B).score := by
  unfold tryMergePair
  split
  · exact le_refl _
  · cases hA : A.fruit with
    | none => exact le_refl _
    | some fa =>
      cases hB : B.fruit with
      | none => exact le_refl _
      | some fb =>
        try dsimp only
        split
        · exact le_refl _
        · split
          · exact le_refl _
          · rw [mergeExec_score]
            dsimp only
            have h1 := one_le_scoreForMerge (min (fa.level + 1) MAX_LEVEL)
              (newChainCount { st with
                mergedThisStep := st.mergedThisStep ++ [A.id, B.id] } now)
            omega

theorem mergeCheckCallback_score_le (st : GameState) (now rvx rvy : ℚ)
    (iA iB lv : ℕ) :
    st.score ≤ (mergeCheckCallback st now rvx rvy iA iB lv).score := by
  unfold mergeCheckCallback
  cases hA : st.bodies.find? (fun b => b.id == iA) with
  | none => exact le_refl _
  | some bA =>
    cases hB : st.bodies.find? (fun b => b.id == iB) with
    | none => exact le_refl _
    | some bB =>
      try dsimp only
      cases hfa : bA.fruit with
      | none => exact le_refl _
      | some fA =>
        try dsimp only
        cases hfb : bB.fruit with
        | none => exact le_refl _
        | some fB =>
          try dsimp only
          split
          · exact le_refl _
          · split
            · exact tryMergePair_score_le st now rvx rvy bA bB
            · exact le_refl _

theorem spawnFruit_score (st : GameState) (now rvx rvy : ℚ) (sx : Option ℚ)
    (fl : Option ℕ) (p n : ℕ) :
    (spawnFruit st now rvx rvy sx fl p n).score = st.score := by
  unfold spawnFruit
  split
  · rfl
  · cases sx <;> cases fl <;> rfl

theorem attemptSpawn_score (st : GameState) (now rvx rvy sx : ℚ) (p n : ℕ) :
    (attemptSpawnAtScreenX st now rvx rvy sx p n).score = st.score := by
  unfold attemptSpawnAtScreenX
  split
  · rfl
  · try dsimp only
    split
    · rfl
    · rw [spawnFruit_score]

theorem keyPressed_score (st : GameState) (now rvx rvy : ℚ) (p n : ℕ)
    (kc : ℤ) : (keyPressed st now rvx rvy p n kc).score = st.score := by
  unfold keyPressed
  split
  · rfl
  · split
    · rw [spawnFruit_score]
    · rfl

theorem drawRoundChecks_score_eq (st : GameState) (now : ℚ) :
    (drawRoundChecks st now).score = st.score := by
  unfold drawRoundChecks supernovaCheck gameOverCheck triggerGameOver
    triggerFruitSupernova
  split_ifs <;> rfl

theorem handleClearSmall_score (st : GameState) :
    (handleClearSmall st).score = st.score := by
  unfold handleClearSmall
  split <;> rfl

theorem startGame_high_stored (st : GameState) :
    (startGame st).high = st.high ∧ (startGame st).stored = st.stored := by
  unfold startGame
  dsimp only
  split_ifs <;> exact ⟨rfl, rfl⟩

/-- Claim C9 (confirmed): within a round the score is monotonically
non-decreasing under every modelled operation; the high score and its
persisted slot survive a restart; and an executed merge strictly increases
the score while leaving the persisted slot holding a value at least the
running score, given the startup invariant that the in-memory high score
mirrors the slot (or is 0 with nothing persisted yet). -/
theorem C9_score_invariant :
    (∀ st now rvx rvy A B, st.score ≤ (tryMergePair st now rvx rvy A B).score)
    ∧ (∀ st now rvx rvy iA iB lv,
        st.score ≤ (mergeCheckCallback st now rvx rvy iA iB lv).score)
    ∧ (∀ st now rvx rvy sx fl p n,
        (spawnFruit st now rvx rvy sx fl p n).score = st.score)
    ∧ (∀ st now rvx rvy sx p n,
        (attemptSpawnAtScreenX st now rvx rvy sx p n).score = st.score)
    ∧ (∀ st now rvx rvy p n kc, (keyPressed st now rvx rvy p n kc).score = st.score)
    ∧ (∀ st now, (drawRoundChecks st now).score = st.score)
    ∧ (∀ st niw nih, (windowResized st niw nih).score = st.score)
    ∧ (∀ st, (handleClearSmall st).score = st.score)
    ∧ (∀ st, (startGame st).high = st.high ∧ (startGame st).stored = st.stored)
    ∧ (∀ st now rvx rvy A B fa fb, A.fruit = some fa → B.fruit = some fb →
        fa.level < MAX_LEVEL →
        A.id ∉ st.mergedThisStep → B.id ∉ st.mergedThisStep →
        A.id ∈ st.worldIds → B.id ∈ st.worldIds →
        0 ≤ st.score → (st.high = 0 ∨ st.stored = some st.high) →
        st.score < (tryMergePair st now rvx rvy A B).score
        ∧ (tryMergePair st now rvx rvy A B).score
            ≤ (tryMergePair st now rvx rvy A B).high
        ∧ ∃ v, (tryMergePair st now rvx rvy A B).stored = some v
             ∧ (tryMergePair st now rvx rvy A B).score ≤ v) := by
  refine ⟨tryMergePair_score_le, mergeCheckCallback_score_le, spawnFruit_score,
    attemptSpawn_score, keyPressed_score, drawRoundChecks_score_eq,
    fun st niw nih => rfl, handleClearSmall_score, startGame_high_stored, ?_⟩
  intro st now rvx rvy A B fa fb hA hB hlev hmA hmB hwA hwB hsc hinv
  rw [tryMergePair_run st now rvx rvy A B fa fb hA hB hlev hmA hmB hwA hwB]
  have hs := mergeExec_score
    { st with mergedThisStep := st.mergedThisStep ++ [A.id, B.id] } now rvx rvy A B fa
  have hh := mergeExec_high
    { st with mergedThisStep := st.mergedThisStep ++ [A.id, B.id] } now rvx rvy A B fa
  have hst := mergeExec_stored
    { st with mergedThisStep := st.mergedThisStep ++ [A.id, B.id] } now rvx rvy A B fa
  dsimp only at hs hh hst
  have h1 := one_le_scoreForMerge (min (fa.level + 1) MAX_LEVEL)
    (newChainCount { st with mergedThisStep := st.mergedThisStep ++ [A.id, B.id] } now)
  refine ⟨by omega, ?_, ?_⟩
  · rw [hs, hh]
    split_ifs with hgt
    · exact le_refl _
    · omega
  · rw [hs, hst]
    split_ifs with hgt
    · exact ⟨_, rfl, le_refl _⟩
    · rcases hinv with h0 | hslot
      · omega
      · exact ⟨st.high, hslot, by omega⟩

/-- Claim C9 witness: the theorem applied to the running two-fruit state,
whose merge executes; the score strictly increases and the slot now holds
at least the running score. -/
theorem C9_score_invariant_witness :
    stC1.score < (tryMergePair stC1 100 0 0 bA1 bB1).score
    ∧ ∃ v, (tryMergePair stC1 100 0 0 bA1 bB1).stored = some v
         ∧ (tryMergePair stC1 100 0 0 bA1 bB1).score ≤ v := by
  have h := C9_score_invariant.2.2.2.2.2.2.2.2.2 stC1 100 0 0 bA1 bB1
    { level := 1, radius := 16, wobble := 0 }
    { level := 1, radius := 16, wobble := 0 }
    rfl rfl (by decide) (by decide) (by decide) (by decide) (by decide)
    (by decide) (Or.inl rfl)
  exact ⟨h.1, h.2.2⟩

end Suika
